import Mathlib

/-!
Verification of the PTAPastePV temporary content-sharing worker.

The anonymous paste variant lives in src/src/index.js (rate limiter,
validators, sanitizer, password generator, upload and view handlers);
the admin-curated variant lives in src/unnamed/part_000 (admin add,
delete and list handlers).  Strings of the JavaScript source are
modelled by Lean strings (one Lean character per UTF-16 code unit of
the source for the inputs considered here), timestamps by integers
counting milliseconds, and the key-value store by an association list
whose `get` sees the most recent `put`.
-/

/-- Maximum requests per window, `RATE_LIMIT_MAX_REQUESTS` in src/src/index.js. -/
def RATE_LIMIT_MAX_REQUESTS : Nat := 10

/-- Window length in seconds, `RATE_LIMIT_WINDOW` in src/src/index.js. -/
def RATE_LIMIT_WINDOW : Nat := 60

/-- One operation issued against the key-value store. -/
inductive KVOp where
  | get (key : String)
  | put (key : String)
  | del (key : String)
  | list
  deriving DecidableEq

/-- The key an operation touches (the empty string for a full-store list). -/
def opKey : KVOp → String
  | .get k => k
  | .put k => k
  | .del k => k
  | .list => ""

/-- The rate-limit counter record `{count, windowStart}` of src/src/index.js. -/
structure RateData where
  count : Nat
  windowStart : Int
  deriving DecidableEq

/-- `checkRateLimit` of src/src/index.js lines 46-88.  `data` is the stored
counter for the client key (read with the `get`), `now` is `Date.now()` in
milliseconds.  Returns the allow decision, the counter record after the call,
and the store operations issued.  The local `windowStart` is `now` minus the
window, exactly as in the source; the first-request branch stores that local
value, the reset branch stores `now`. -/
def checkRateLimit (key : String) (data : Option RateData) (now : Int) :
    Bool × Option RateData × List KVOp :=
  let windowStart : Int := now - (RATE_LIMIT_WINDOW : Int) * 1000
  match data with
  | none => (true, some ⟨1, windowStart⟩, [.get key, .put key])
  | some d =>
    if d.windowStart < windowStart then
      (true, some ⟨1, now⟩, [.get key, .put key])
    else if RATE_LIMIT_MAX_REQUESTS ≤ d.count then
      (false, some d, [.get key])
    else
      (true, some ⟨d.count + 1, d.windowStart⟩, [.get key, .put key])

/-- A sequence of calls to `checkRateLimit` for one client, one call per
timestamp, threading the stored counter; returns the allow decisions in
order together with the final counter. -/
def rlRun (st : Option RateData) : List Int → List Bool × Option RateData
  | [] => ([], st)
  | t :: ts =>
    let r := checkRateLimit "ratelimit:client" st t
    let rest := rlRun r.2.1 ts
    (r.1 :: rest.1, rest.2)

/-- The rate-limit key `'ratelimit:' + ip` of src/src/index.js. -/
def rlKey (ip : String) : String := "ratelimit:" ++ ip

/-- A stored paste record of src/src/index.js `handleUpload`. -/
structure PasteRecord where
  content : String
  password : String
  createdAt : Int
  expiresAt : Int
  views : Nat
  deriving DecidableEq

/-- Read a key: the value of the most recent put, as in the worker KV store. -/
def kvGet {α : Type} (store : List (String × α)) (k : String) : Option α :=
  match store with
  | [] => none
  | (k₂, v) :: rest => if k₂ = k then some v else kvGet rest k

/-- Write a key (overwrites any previous value as observed through `kvGet`). -/
def kvPut {α : Type} (store : List (String × α)) (k : String) (v : α) :
    List (String × α) :=
  (k, v) :: store

/-- Delete a key. -/
def kvDelete {α : Type} (store : List (String × α)) (k : String) :
    List (String × α) :=
  store.filter (fun p => p.1 != k)

/-- `validateString` of src/src/index.js lines 91-95 on an actual string. -/
def validateString (input : String) (minLength maxLength : Nat) : Bool :=
  decide (minLength ≤ input.length) && decide (input.length ≤ maxLength)

/-- Membership in the character class `[A-Za-z0-9]`. -/
def isAlphaNumChar (c : Char) : Bool :=
  (decide ('A' ≤ c) && decide (c ≤ 'Z')) ||
    (decide ('a' ≤ c) && decide (c ≤ 'z')) ||
    (decide ('0' ≤ c) && decide (c ≤ '9'))

/-- The test `/^[A-Za-z0-9]+$/.test s`: nonempty and alphanumeric throughout. -/
def matchesAlphaNum (s : String) : Bool :=
  !s.data.isEmpty && s.data.all isAlphaNumChar

/-- `validatePassword` of src/src/index.js lines 104-107. -/
def validatePassword (password : String) : Bool :=
  validateString password 16 16 && matchesAlphaNum password

/-- A character matched by the sanitizer class
`[\x00-\x08\x0B\x0C\x0E-\x1F\x7F]` of src/src/index.js line 119. -/
def isStrippedControl (c : Char) : Bool :=
  decide (c.toNat ≤ 0x08) || decide (c.toNat = 0x0B) || decide (c.toNat = 0x0C) ||
    (decide (0x0E ≤ c.toNat) && decide (c.toNat ≤ 0x1F)) || decide (c.toNat = 0x7F)

/-- `sanitizeContent` of src/src/index.js lines 117-120: drop every character
of the control class, keeping newline and tab (which the class omits). -/
def sanitizeContent (content : String) : String :=
  ⟨content.data.filter (fun c => !isStrippedControl c)⟩

/-- The alphabet `chars` of `generatePassword`, src/src/index.js line 124. -/
def chars : String :=
  "ABCDEFGHIJKLMNOPQRSTUVWXYZabcdefghijklmnopqrstuvwxyz0123456789"

/-- One password character: `chars[r % chars.length]` for a random 32-bit
value `r` (src/src/index.js line 129). -/
def passwordChar (r : Nat) : Char :=
  chars.data.getD (r % chars.length) ' '

/-- `generatePassword` of src/src/index.js lines 123-132, applied to the
values the secure random source filled into the `Uint32Array` (the source
always requests 16 of them). -/
def generatePassword (randoms : List Nat) : String :=
  ⟨randoms.map passwordChar⟩

/-- Outcome of `handleUpload`: an error response or the success payload
`{password, expiresAt, expiresIn}`. -/
inductive UploadResult where
  | err (status : Nat) (msg : String)
  | ok (password : String) (expiresAt : Int) (expiresIn : Nat)
  deriving DecidableEq

/-- `MAX_CONTENT_LENGTH` of src/src/index.js line 208. -/
def MAX_CONTENT_LENGTH : Nat := 10 * 1024

/-- `validExpiryHours` of src/src/index.js line 217. -/
def validExpiryHours : List Nat := [1, 6, 24, 168]

/-- The expiry defaulting of src/src/index.js line 218: a missing, falsy or
non-allowed `expiryHours` falls back to 24. -/
def uploadHours (expiryHours : Option Nat) : Nat :=
  match expiryHours with
  | some h => if h ≠ 0 ∧ h ∈ validExpiryHours then h else 24
  | none => 24

/-- The paste store: the worker KV namespace restricted to paste records. -/
abbrev KVStore := List (String × PasteRecord)

/-- The body-processing part of `handleUpload`, src/src/index.js lines
200-243: content presence and length checks, sanitization, expiry
defaulting, record construction and the put keyed by the generated
password.  `content` is `none` when the field is absent or not a string;
`password` stands for the freshly generated password. -/
def handleUpload (store : KVStore) (content : Option String)
    (expiryHours : Option Nat) (password : String) (now : Int) :
    UploadResult × KVStore :=
  match content with
  | none => (.err 400 "Content is required", store)
  | some c =>
    if c.length = 0 then (.err 400 "Content is required", store)
    else if MAX_CONTENT_LENGTH < c.length then
      (.err 400 "Content too large (max 10KB)", store)
    else
      let sanitized := sanitizeContent c
      let hours := uploadHours expiryHours
      let expiresAt : Int := now + (hours : Int) * 60 * 60 * 1000
      (.ok password expiresAt hours,
        kvPut store password ⟨sanitized, password, now, expiresAt, 0⟩)

/-- Outcome of `handleView`: an error response or the success payload
`{content, createdAt, expiresAt, views}`. -/
inductive ViewResult where
  | err (status : Nat) (msg : String)
  | ok (content : String) (createdAt : Int) (expiresAt : Int) (views : Nat)
  deriving DecidableEq

/-- The record part of `handleView`, src/src/index.js lines 276-313:
password shape check, fetch by password, the expiry check with cleanup
delete, and the view-count increment.  Returns the response, the paste
store after the call and the operations issued against it. -/
def handleView (store : KVStore) (password : String) (now : Int) :
    ViewResult × KVStore × List KVOp :=
  if validatePassword password then
    match kvGet store password with
    | none => (.err 404 "Invalid password or content expired", store, [.get password])
    | some d =>
      if d.expiresAt < now then
        (.err 410 "Content expired", kvDelete store password,
          [.get password, .del password])
      else
        (.ok d.content d.createdAt d.expiresAt (d.views + 1),
          kvPut store password ⟨d.content, d.password, d.createdAt, d.expiresAt, d.views + 1⟩,
          [.get password, .put password])
  else
    (.err 400 "Invalid password format", store, [])

/-- The whole of `handleView`, src/src/index.js lines 251-318: the
Content-Type check, the rate-limit check (which reads and writes the same
KV namespace under the rate-limit key), the JSON parse, then the record
part.  `rl` is the stored rate-limit counter of the client, `contentTypeOk`
and `bodyOk` model the Content-Type header test and the JSON parse.
Returns the response, the counter and paste store after the call, and all
operations issued against the KV namespace in order. -/
def handleViewFull (rl : Option RateData) (pastes : KVStore)
    (contentTypeOk bodyOk : Bool) (ip : String) (password : String) (now : Int) :
    ViewResult × Option RateData × KVStore × List KVOp :=
  if !contentTypeOk then
    (.err 400 "Invalid Content-Type", rl, pastes, [])
  else
    let rlr := checkRateLimit (rlKey ip) rl now
    if !rlr.1 then
      (.err 429 "Too many requests, please try again later", rlr.2.1, pastes, rlr.2.2)
    else if !bodyOk then
      (.err 400 "Invalid JSON", rlr.2.1, pastes, rlr.2.2)
    else
      let v := handleView pastes password now
      (v.1, rlr.2.1, v.2.1, rlr.2.2 ++ v.2.2)

/-- One `{label, content}` item of the admin-curated variant. -/
structure AdminItem where
  label : String
  content : String
  deriving DecidableEq

/-- A stored record of the admin-curated variant (src/unnamed/part_000). -/
structure AdminRecord where
  title : String
  items : List AdminItem
  createdAt : Int
  expiresAt : Option Int
  deriving DecidableEq

/-- The store of the admin-curated variant, keyed by password hashes. -/
abbrev AdminStore := List (String × AdminRecord)

/-- Outcome of the admin add and delete handlers. -/
inductive AdminResult where
  | err (status : Nat) (msg : String)
  | ok (msg : String)
  deriving DecidableEq

/-- Outcome of the admin list handler: an error or the rows
`{hash, title, itemCount, createdAt, expiresAt}`. -/
inductive AdminListResult where
  | err (status : Nat) (msg : String)
  | ok (items : List (String × String × Nat × Int × Option Int))
  deriving DecidableEq

/-- The `expiresAt || null` defaulting of src/unnamed/part_000 line 139
(a falsy timestamp becomes null). -/
def jsOrNull (x : Option Int) : Option Int :=
  match x with
  | some e => if e = 0 then none else some e
  | none => none

/-- `handleAdminAdd` of src/unnamed/part_000 lines 117-148.  `hash` stands
for the SHA-256 hex digest function, `envAdminPassword` for
`env.ADMIN_PASSWORD`; `password`, `title` and `items` are `none` when the
field is absent (or, for `items`, not an array).  Returns the response, the
store after the call and the operations issued. -/
def handleAdminAdd (hash : String → String) (envAdminPassword : String)
    (store : AdminStore) (adminPassword : String) (password title : Option String)
    (items : Option (List AdminItem)) (expiresAt : Option Int) (now : Int) :
    AdminResult × AdminStore × List KVOp :=
  if adminPassword ≠ envAdminPassword then
    (.err 401 "Invalid admin password", store, [])
  else
    match password, title, items with
    | some pw, some t, some its =>
      if pw = "" ∨ t = "" then (.err 400 "Invalid data format", store, [])
      else
        let key := hash pw
        (.ok "Content added successfully",
          kvPut store key ⟨t, its, now, jsOrNull expiresAt⟩, [.put key])
    | _, _, _ => (.err 400 "Invalid data format", store, [])

/-- `handleAdminDelete` of src/unnamed/part_000 lines 151-173. -/
def handleAdminDelete (envAdminPassword : String) (store : AdminStore)
    (adminPassword : String) (hash : Option String) :
    AdminResult × AdminStore × List KVOp :=
  if adminPassword ≠ envAdminPassword then
    (.err 401 "Invalid admin password", store, [])
  else
    match hash with
    | some h =>
      if h = "" then (.err 400 "Hash required", store, [])
      else (.ok "Content deleted successfully", kvDelete store h, [.del h])
    | none => (.err 400 "Hash required", store, [])

/-- `handleAdminList` of src/unnamed/part_000 lines 176-209. -/
def handleAdminList (envAdminPassword : String) (store : AdminStore)
    (adminPassword : String) : AdminListResult × AdminStore × List KVOp :=
  if adminPassword ≠ envAdminPassword then
    (.err 401 "Invalid admin password", store, [])
  else
    (.ok (store.map (fun p => (p.1, p.2.title, p.2.items.length, p.2.createdAt, p.2.expiresAt))),
      store, .list :: store.map (fun p => .get p.1))

/-- Reading a key right after writing it returns the written value. -/
theorem kvGet_put_self {α : Type} (store : List (String × α)) (k : String) (v : α) :
    kvGet (kvPut store k v) k = some v := by
  simp [kvGet, kvPut]

/-- Reading a key right after deleting it finds nothing. -/
theorem kvGet_delete_self {α : Type} (store : List (String × α)) (k : String) :
    kvGet (kvDelete store k) k = none := by
  induction store with
  | nil => rfl
  | cons p rest ih =>
    by_cases h : p.1 = k <;>
      simp [kvDelete, List.filter_cons, h, kvGet] at ih ⊢ <;>
      simpa [kvDelete] using ih

/-- C9: the control-character stripper is idempotent - sanitizing a string
twice yields the same result as sanitizing it once. -/
theorem sanitizeContent_idempotent (s : String) :
    sanitizeContent (sanitizeContent s) = sanitizeContent s := by
  unfold sanitizeContent
  simp [List.filter_filter]

/-- C10: a password built by the generator from 16 random values always
passes the view handler shape check `validatePassword`. -/
theorem generatePassword_validatePassword (randoms : List Nat)
    (h : randoms.length = 16) :
    validatePassword (generatePassword randoms) = true := by
  have hlen : (generatePassword randoms).length = 16 := by
    show (randoms.map passwordChar).length = 16
    simp [h]
  have halnum : ∀ r : Nat, isAlphaNumChar (passwordChar r) = true := by
    intro r
    have hch : chars.length = 62 := rfl
    have h62 : r % chars.length < 62 := by
      rw [hch]; exact Nat.mod_lt _ (by norm_num)
    have hall : ∀ j, j < 62 → isAlphaNumChar (chars.data.getD j ' ') = true := by
      decide
    exact hall _ h62
  have hne : randoms ≠ [] := by
    intro he; rw [he] at h; exact absurd h (by decide)
  unfold validatePassword validateString matchesAlphaNum
  rw [hlen]
  have hdata : (generatePassword randoms).data = randoms.map passwordChar := rfl
  rw [hdata]
  simp [List.all_eq_true, hne]
  intro c _
  exact halnum c

/-- C10 witness: the generator output for a concrete block of 16 random
values passes `validatePassword`. -/
theorem generatePassword_validatePassword_witness :
    validatePassword (generatePassword (List.replicate 16 0)) = true :=
  generatePassword_validatePassword (List.replicate 16 0) (by decide)

/-- C1: the fixed-window rate limiter does not behave as claimed: the very
first request of a client stores `windowStart = now - 60*1000` (the cutoff
local variable) rather than `now`, so the second request of the window takes
the reset branch; twelve requests at one-millisecond intervals are all
allowed up to and including the eleventh, and the first denial only hits the
twelfth.  A counter whose window has elapsed is reset and allowed again, and
a denied request surfaces as HTTP 429. -/
theorem checkRateLimit_first_window_bug :
    (checkRateLimit "ratelimit:c" none 60000).2.1 = some ⟨1, 0⟩ ∧
    (rlRun none (List.map (fun n => (n : Int)) (List.range 12))).1
      = List.replicate 11 true ++ [false] ∧
    (checkRateLimit "ratelimit:c" (some ⟨10, 0⟩) 70000).1 = true ∧
    (handleViewFull (some ⟨10, 0⟩) [] true true "c" "AAAAAAAAAAAAAAAA" 5).1
      = .err 429 "Too many requests, please try again later" := by
  decide

/-- C3: a record whose `expiresAt` is in the past is never returned by the
view handler: the first access with a valid-shaped password answers 410
"Content expired" and deletes the record, and every later access with the
same password answers the 404 not-found outcome. -/
theorem handleView_expired_flow (store : KVStore) (pw : String) (d : PasteRecord)
    (now now₂ : Int) (hpw : validatePassword pw = true)
    (hget : kvGet store pw = some d) (hexp : d.expiresAt < now) :
    (handleView store pw now).1 = .err 410 "Content expired" ∧
    kvGet (handleView store pw now).2.1 pw = none ∧
    (handleView (handleView store pw now).2.1 pw now₂).1
      = .err 404 "Invalid password or content expired" := by
  have h1 : handleView store pw now
      = (.err 410 "Content expired", kvDelete store pw, [.get pw, .del pw]) := by
    simp [handleView, hpw, hget, hexp]
  rw [h1]
  refine ⟨rfl, kvGet_delete_self store pw, ?_⟩
  simp [handleView, hpw, kvGet_delete_self]

/-- C3 witness: a concrete expired record is deleted on first view and the
second view reports not-found. -/
theorem handleView_expired_flow_witness :
    (handleView [("AAAAAAAAAAAAAAAA", ⟨"hi", "AAAAAAAAAAAAAAAA", 0, 1, 0⟩)]
        "AAAAAAAAAAAAAAAA" 2).1 = .err 410 "Content expired" ∧
    kvGet (handleView [("AAAAAAAAAAAAAAAA", ⟨"hi", "AAAAAAAAAAAAAAAA", 0, 1, 0⟩)]
        "AAAAAAAAAAAAAAAA" 2).2.1 "AAAAAAAAAAAAAAAA" = none ∧
    (handleView (handleView [("AAAAAAAAAAAAAAAA", ⟨"hi", "AAAAAAAAAAAAAAAA", 0, 1, 0⟩)]
        "AAAAAAAAAAAAAAAA" 2).2.1 "AAAAAAAAAAAAAAAA" 3).1
      = .err 404 "Invalid password or content expired" :=
  handleView_expired_flow [("AAAAAAAAAAAAAAAA", ⟨"hi", "AAAAAAAAAAAAAAAA", 0, 1, 0⟩)]
    "AAAAAAAAAAAAAAAA" ⟨"hi", "AAAAAAAAAAAAAAAA", 0, 1, 0⟩ 2 3
    (by decide) (by decide) (by decide)

/-- C7: viewing with a valid-shaped but never-issued password and viewing
with the key of an expired record after its cleanup deletion produce the
identical response - the same 404 status and the same message. -/
theorem view_indistinguishability (s₁ s₂ : KVStore) (pw₁ pw₂ : String)
    (d : PasteRecord) (now₁ now₂ now₃ : Int)
    (hpw₁ : validatePassword pw₁ = true) (hg₁ : kvGet s₁ pw₁ = none)
    (hpw₂ : validatePassword pw₂ = true) (hg₂ : kvGet s₂ pw₂ = some d)
    (hexp : d.expiresAt < now₂) :
    (handleView s₁ pw₁ now₁).1 = .err 404 "Invalid password or content expired" ∧
    (handleView (handleView s₂ pw₂ now₂).2.1 pw₂ now₃).1
      = (handleView s₁ pw₁ now₁).1 := by
  have h1 : (handleView s₁ pw₁ now₁).1
      = .err 404 "Invalid password or content expired" := by
    simp [handleView, hpw₁, hg₁]
  have h2 : handleView s₂ pw₂ now₂
      = (.err 410 "Content expired", kvDelete s₂ pw₂, [.get pw₂, .del pw₂]) := by
    simp [handleView, hpw₂, hg₂, hexp]
  refine ⟨h1, ?_⟩
  rw [h1, h2]
  simp [handleView, hpw₂, kvGet_delete_self]

/-- C7 witness: a concrete never-issued password and a concrete
expired-and-deleted key collapse to the same 404 response. -/
theorem view_indistinguishability_witness :
    (handleView [] "BBBBBBBBBBBBBBBB" 0).1
      = .err 404 "Invalid password or content expired" ∧
    (handleView (handleView [("AAAAAAAAAAAAAAAA", ⟨"hi", "AAAAAAAAAAAAAAAA", 0, 1, 0⟩)]
        "AAAAAAAAAAAAAAAA" 2).2.1 "AAAAAAAAAAAAAAAA" 3).1
      = (handleView [] "BBBBBBBBBBBBBBBB" 0).1 :=
  view_indistinguishability [] [("AAAAAAAAAAAAAAAA", ⟨"hi", "AAAAAAAAAAAAAAAA", 0, 1, 0⟩)]
    "BBBBBBBBBBBBBBBB" "AAAAAAAAAAAAAAAA" ⟨"hi", "AAAAAAAAAAAAAAAA", 0, 1, 0⟩ 0 2 3
    (by decide) (by decide) (by decide) (by decide) (by decide)

/-- C2 counterexample: the round-trip claim fails as stated.  The content
consisting of one null byte is accepted by upload (non-empty and within the
size limit), but view returns the sanitized empty string, not the uploaded
content unchanged. -/
theorem upload_view_roundtrip_cex :
    ("\x00" : String).length = 1 ∧
    (handleUpload [] (some "\x00") none "AAAAAAAAAAAAAAAA" 0).1
      = .ok "AAAAAAAAAAAAAAAA" 86400000 24 ∧
    (handleView (handleUpload [] (some "\x00") none "AAAAAAAAAAAAAAAA" 0).2
        "AAAAAAAAAAAAAAAA" 0).1
      = .ok "" 0 86400000 1 ∧
    ("" : String) ≠ "\x00" := by
  decide

/-- C2 (amended): uploading an accepted content and immediately viewing with
the returned password yields the sanitized content with `views = 1`, and a
second view yields it again with `views = 2`. -/
theorem upload_view_roundtrip (store : KVStore) (c : String) (eh : Option Nat)
    (pw : String) (now : Int) (hne : c.length ≠ 0)
    (hle : c.length ≤ MAX_CONTENT_LENGTH) (hpw : validatePassword pw = true) :
    (handleUpload store (some c) eh pw now).1
      = .ok pw (now + (uploadHours eh : Int) * 60 * 60 * 1000) (uploadHours eh) ∧
    (handleView (handleUpload store (some c) eh pw now).2 pw now).1
      = .ok (sanitizeContent c) now
          (now + (uploadHours eh : Int) * 60 * 60 * 1000) 1 ∧
    (handleView (handleView (handleUpload store (some c) eh pw now).2 pw now).2.1
        pw now).1
      = .ok (sanitizeContent c) now
          (now + (uploadHours eh : Int) * 60 * 60 * 1000) 2 := by
  have hnotlt : ¬ MAX_CONTENT_LENGTH < c.length := Nat.not_lt.mpr hle
  have hup : handleUpload store (some c) eh pw now
      = (.ok pw (now + (uploadHours eh : Int) * 60 * 60 * 1000) (uploadHours eh),
         kvPut store pw
           ⟨sanitizeContent c, pw, now,
            now + (uploadHours eh : Int) * 60 * 60 * 1000, 0⟩) := by
    simp [handleUpload, hne, hnotlt]
  have hexp : ¬ (now + (uploadHours eh : Int) * 60 * 60 * 1000 < now) := by omega
  have hv1 : handleView (handleUpload store (some c) eh pw now).2 pw now
      = (.ok (sanitizeContent c) now
            (now + (uploadHours eh : Int) * 60 * 60 * 1000) 1,
         kvPut (handleUpload store (some c) eh pw now).2 pw
           ⟨sanitizeContent c, pw, now,
            now + (uploadHours eh : Int) * 60 * 60 * 1000, 1⟩,
         [.get pw, .put pw]) := by
    rw [hup]
    simp [handleView, hpw, kvGet_put_self, hexp]
  refine ⟨by rw [hup], by rw [hv1], ?_⟩
  rw [hv1]
  simp [handleView, hpw, kvGet_put_self, hexp]

/-- C2 witness: a concrete clean content round-trips with view counts one
and two. -/
theorem upload_view_roundtrip_witness :
    (handleUpload [] (some "hi") none "AAAAAAAAAAAAAAAA" 0).1
      = .ok "AAAAAAAAAAAAAAAA" (0 + (uploadHours none : Int) * 60 * 60 * 1000)
          (uploadHours none) ∧
    (handleView (handleUpload [] (some "hi") none "AAAAAAAAAAAAAAAA" 0).2
        "AAAAAAAAAAAAAAAA" 0).1
      = .ok (sanitizeContent "hi") 0
          (0 + (uploadHours none : Int) * 60 * 60 * 1000) 1 ∧
    (handleView (handleView (handleUpload [] (some "hi") none "AAAAAAAAAAAAAAAA" 0).2
        "AAAAAAAAAAAAAAAA" 0).2.1 "AAAAAAAAAAAAAAAA" 0).1
      = .ok (sanitizeContent "hi") 0
          (0 + (uploadHours none : Int) * 60 * 60 * 1000) 2 :=
  upload_view_roundtrip [] "hi" none "AAAAAAAAAAAAAAAA" 0 (by decide) (by decide)
    (by decide)

/-- C5: content of exactly 10240 characters is accepted by upload, while
content of 10241 characters is rejected with the 400 "too large" error. -/
theorem upload_size_boundary (store : KVStore) (c₁ c₂ : String) (eh : Option Nat)
    (pw : String) (now : Int) (h₁ : c₁.length = 10240) (h₂ : c₂.length = 10241) :
    (handleUpload store (some c₁) eh pw now).1
      = .ok pw (now + (uploadHours eh : Int) * 60 * 60 * 1000) (uploadHours eh) ∧
    (handleUpload store (some c₂) eh pw now).1
      = .err 400 "Content too large (max 10KB)" := by
  constructor
  · norm_num [handleUpload, h₁, MAX_CONTENT_LENGTH]
  · norm_num [handleUpload, h₂, MAX_CONTENT_LENGTH]

/-- C5 witness: the boundary evaluated at concrete contents of lengths
10240 and 10241. -/
theorem upload_size_boundary_witness :
    (handleUpload [] (some (String.mk (List.replicate 10240 'a'))) none
        "AAAAAAAAAAAAAAAA" 0).1
      = .ok "AAAAAAAAAAAAAAAA" (0 + (uploadHours none : Int) * 60 * 60 * 1000)
          (uploadHours none) ∧
    (handleUpload [] (some (String.mk (List.replicate 10241 'a'))) none
        "AAAAAAAAAAAAAAAA" 0).1
      = .err 400 "Content too large (max 10KB)" :=
  upload_size_boundary [] _ _ none "AAAAAAAAAAAAAAAA" 0
    (by show (List.replicate 10240 'a').length = 10240; rw [List.length_replicate])
    (by show (List.replicate 10241 'a').length = 10241; rw [List.length_replicate])

/-- Every operation the rate limiter issues touches its own counter key. -/
theorem checkRateLimit_ops_key (key : String) (st : Option RateData) (now : Int) :
    ∀ op ∈ (checkRateLimit key st now).2.2, opKey op = key := by
  intro op hop
  have hsub : (checkRateLimit key st now).2.2 = [KVOp.get key, KVOp.put key] ∨
      (checkRateLimit key st now).2.2 = [KVOp.get key] := by
    cases st with
    | none => exact Or.inl rfl
    | some d =>
      by_cases h₁ : d.windowStart < now - (RATE_LIMIT_WINDOW : Int) * 1000
      · exact Or.inl (by simp [checkRateLimit, h₁])
      · by_cases h₂ : RATE_LIMIT_MAX_REQUESTS ≤ d.count
        · exact Or.inr (by simp [checkRateLimit, h₁, h₂])
        · exact Or.inl (by simp [checkRateLimit, h₁, h₂])
  rcases hsub with he | he
  · rw [he] at hop
    simp only [List.mem_cons, List.not_mem_nil, or_false] at hop
    rcases hop with h | h <;> subst h <;> rfl
  · rw [he] at hop
    simp only [List.mem_cons, List.not_mem_nil, or_false] at hop
    subst hop
    rfl

/-- C4 counterexample: a view request with a malformed password is rejected
with 400, but store accesses have already been performed by then - the
rate limiter reads and writes the same key-value namespace first, so the
trace of issued operations is not empty. -/
theorem invalid_password_store_access_cex :
    (handleViewFull none [] true true "c" "bad" 0).1
      = .err 400 "Invalid password format" ∧
    (handleViewFull none [] true true "c" "bad" 0).2.2.2 ≠ [] := by
  decide

/-- C4 (amended): a view request with a password that is not 16 characters
of `[A-Za-z0-9]` (with well-formed Content-Type and body, and the rate
limiter allowing) is rejected with status 400, the paste records are left
untouched, and every key-value operation issued before the rejection is on
the rate-limit counter key - the password key is never accessed. -/
theorem invalid_password_rejected (rl : Option RateData) (pastes : KVStore)
    (ip pw : String) (now : Int) (hpw : validatePassword pw = false)
    (hallow : (checkRateLimit (rlKey ip) rl now).1 = true) :
    (handleViewFull rl pastes true true ip pw now).1
      = .err 400 "Invalid password format" ∧
    (handleViewFull rl pastes true true ip pw now).2.2.1 = pastes ∧
    ∀ op ∈ (handleViewFull rl pastes true true ip pw now).2.2.2,
      opKey op = rlKey ip := by
  have hview : handleView pastes pw now
      = (.err 400 "Invalid password format", pastes, []) := by
    simp [handleView, hpw]
  refine ⟨?_, ?_, ?_⟩
  · simp [handleViewFull, hallow, hview]
  · simp [handleViewFull, hallow, hview]
  · intro op hop
    simp [handleViewFull, hallow, hview] at hop
    exact checkRateLimit_ops_key _ _ _ op hop

/-- C4 witness: the amended statement evaluated at a concrete malformed
password with an empty store. -/
theorem invalid_password_rejected_witness :
    (handleViewFull none [] true true "c" "bad" 0).1
      = .err 400 "Invalid password format" ∧
    (handleViewFull none [] true true "c" "bad" 0).2.2.1 = [] ∧
    ∀ op ∈ (handleViewFull none [] true true "c" "bad" 0).2.2.2,
      opKey op = rlKey "c" :=
  invalid_password_rejected none [] "c" "bad" 0 (by decide) (by decide)

/-- C8: every admin endpoint called with a wrong admin secret answers 401
"Invalid admin password", leaves the store unchanged and issues no
key-value operation at all - in particular no put and no delete. -/
theorem admin_wrong_secret_no_mutation (hash : String → String)
    (envAdminPassword adminPassword : String) (store : AdminStore)
    (password title : Option String) (items : Option (List AdminItem))
    (expiresAt : Option Int) (now : Int) (h : Option String)
    (hne : adminPassword ≠ envAdminPassword) :
    handleAdminAdd hash envAdminPassword store adminPassword password title
        items expiresAt now
      = (.err 401 "Invalid admin password", store, []) ∧
    handleAdminDelete envAdminPassword store adminPassword h
      = (.err 401 "Invalid admin password", store, []) ∧
    handleAdminList envAdminPassword store adminPassword
      = (.err 401 "Invalid admin password", store, []) := by
  refine ⟨?_, ?_, ?_⟩ <;>
    simp [handleAdminAdd, handleAdminDelete, handleAdminList, hne]

/-- C8 witness: a concrete wrong admin secret is rejected by all three
admin handlers without any store operation. -/
theorem admin_wrong_secret_no_mutation_witness :
    handleAdminAdd (fun s => s) "secret" [] "wrong" (some "p") (some "t")
        (some []) none 0
      = (.err 401 "Invalid admin password", [], []) ∧
    handleAdminDelete "secret" [] "wrong" (some "h")
      = (.err 401 "Invalid admin password", [], []) ∧
    handleAdminList "secret" [] "wrong"
      = (.err 401 "Invalid admin password", [], []) :=
  admin_wrong_secret_no_mutation (fun s => s) "secret" "wrong" [] (some "p")
    (some "t") (some []) none 0 (some "h") (by decide)

/-- Counting a residue class below a bound: if the multiples `62*k + i`
below `2^32` are exactly those with `k < c`, then the fiber of `i` under
`fun r => r % 62` on the 32-bit values has exactly `c` elements. -/
theorem mod62_fiber_card (i c : Nat) (hi : i < 62)
    (hc : ∀ k, 62 * k + i < 2 ^ 32 ↔ k < c) :
    ((Finset.range (2 ^ 32)).filter (fun r => r % 62 = i)).card = c := by
  have himg : (Finset.range (2 ^ 32)).filter (fun r => r % 62 = i)
      = (Finset.range c).image (fun k => 62 * k + i) := by
    ext r
    simp only [Finset.mem_filter, Finset.mem_range, Finset.mem_image]
    constructor
    · rintro ⟨hr, hmod⟩
      refine ⟨r / 62, ?_, ?_⟩
      · rw [← hc]
        calc 62 * (r / 62) + i = r := by rw [← hmod]; exact Nat.div_add_mod r 62
          _ < 2 ^ 32 := hr
      · rw [← hmod]; exact Nat.div_add_mod r 62
    · rintro ⟨k, hk, rfl⟩
      exact ⟨(hc k).mpr hk, by rw [Nat.mul_add_mod]; exact Nat.mod_eq_of_lt hi⟩
  rw [himg, Finset.card_image_of_injective _ (fun a b hab => by omega),
    Finset.card_range]

/-- C6 counterexample: the password characters are not uniform over the
alphabet even for a uniformly random 32-bit value per position: among the
2^32 inputs, `passwordChar` hits the first alphabet character more often
than the last one (modulo bias, since 62 does not divide 2^32). -/
theorem generatePassword_uniformity_cex :
    ((Finset.range (2 ^ 32)).filter (fun r => passwordChar r = 'A')).card ≠
    ((Finset.range (2 ^ 32)).filter (fun r => passwordChar r = '9')).card := by
  have hch : chars.length = 62 := rfl
  have hA : ((Finset.range (2 ^ 32)).filter (fun r => passwordChar r = 'A')).card
      = 69273667 := by
    have hcongr : ((Finset.range (2 ^ 32)).filter (fun r => passwordChar r = 'A'))
        = ((Finset.range (2 ^ 32)).filter (fun r => r % 62 = 0)) := by
      refine Finset.filter_congr ?_
      intro r _
      have h62 : r % 62 < 62 := Nat.mod_lt _ (by norm_num)
      have hall : ∀ j, j < 62 → ((chars.data.getD j ' ' = 'A') ↔ j = 0) := by
        decide
      simp only [passwordChar, hch]
      exact hall _ h62
    rw [hcongr]
    refine mod62_fiber_card 0 69273667 (by norm_num) ?_
    intro k
    have hp : (2 : ℕ) ^ 32 = 4294967296 := by norm_num
    omega
  have h9 : ((Finset.range (2 ^ 32)).filter (fun r => passwordChar r = '9')).card
      = 69273666 := by
    have hcongr : ((Finset.range (2 ^ 32)).filter (fun r => passwordChar r = '9'))
        = ((Finset.range (2 ^ 32)).filter (fun r => r % 62 = 61)) := by
      refine Finset.filter_congr ?_
      intro r _
      have h62 : r % 62 < 62 := Nat.mod_lt _ (by norm_num)
      have hall : ∀ j, j < 62 → ((chars.data.getD j ' ' = '9') ↔ j = 61) := by
        decide
      simp only [passwordChar, hch]
      exact hall _ h62
    rw [hcongr]
    refine mod62_fiber_card 61 69273666 (by norm_num) ?_
    intro k
    have hp : (2 : ℕ) ^ 32 = 4294967296 := by norm_num
    omega
  rw [hA, h9]
  decide

/-- C6 (amended): the generator output for 16 random values has exactly 16
characters, every character lies in the 62-character alphanumeric alphabet,
and for a uniformly random 32-bit value per position the alphabet indices
are only near-uniform: the first four indices each arise from
`69273667` of the `2^32` inputs and the remaining ones from `69273666`. -/
theorem generatePassword_length_alphabet_bias (randoms : List Nat)
    (h : randoms.length = 16) :
    (generatePassword randoms).length = 16 ∧
    (∀ c ∈ (generatePassword randoms).data, c ∈ chars.data) ∧
    (∀ i, i < chars.length →
      ((Finset.range (2 ^ 32)).filter (fun r => r % chars.length = i)).card
        = 69273666 + if i < 4 then 1 else 0) := by
  have hch : chars.length = 62 := rfl
  refine ⟨?_, ?_, ?_⟩
  · show (randoms.map passwordChar).length = 16
    simp [h]
  · intro c hc
    have hc₂ : c ∈ randoms.map passwordChar := hc
    rcases List.mem_map.mp hc₂ with ⟨r, _, rfl⟩
    have h62 : r % chars.length < 62 := by
      rw [hch]; exact Nat.mod_lt _ (by norm_num)
    have hall : ∀ j, j < 62 → chars.data.getD j ' ' ∈ chars.data := by decide
    exact hall _ h62
  · intro i hi
    rw [hch] at hi ⊢
    by_cases h₄ : i < 4
    · rw [if_pos h₄]
      refine mod62_fiber_card i 69273667 hi ?_
      intro k
      have hp : (2 : ℕ) ^ 32 = 4294967296 := by norm_num
      omega
    · rw [if_neg h₄, Nat.add_zero]
      refine mod62_fiber_card i 69273666 hi ?_
      intro k
      have hp : (2 : ℕ) ^ 32 = 4294967296 := by norm_num
      omega

/-- C6 witness: the amended statement at a concrete block of 16 random
values. -/
theorem generatePassword_length_alphabet_bias_witness :
    (generatePassword (List.replicate 16 0)).length = 16 ∧
    (∀ c ∈ (generatePassword (List.replicate 16 0)).data, c ∈ chars.data) ∧
    (∀ i, i < chars.length →
      ((Finset.range (2 ^ 32)).filter (fun r => r % chars.length = i)).card
        = 69273666 + if i < 4 then 1 else 0) :=
  generatePassword_length_alphabet_bias (List.replicate 16 0) (by decide)
